import Mathlib

/-!
Shallow embedding of the FileView chat relay: the server-side session
protocol handler (`server.js`, given as `src/unnamed/part_002`), the
client-side reconnecting WebSocket hook (`useWebSocket.ts`, given as
`src/unnamed/part_001`), and the chat message reducer
(`src/agent-ui/src/components/chat/Chat.tsx`).

Wire messages carry a `type` and an optional `content` field: in the
JavaScript source the thinking_done frames are object literals built with
no `content` key at all, which we model as `Option String` with `none`
for an absent field.
-/

namespace FileView

/-- A server-to-client (or client-to-server) wire frame as constructed by
the server: a `type` string and an optional `content` payload (`none`
models a JavaScript object literal with no `content` key). -/
structure ServerMsg where
  type : String
  content : Option String
deriving DecidableEq, Repr

/-- JavaScript `String.prototype.includes` for a non-empty needle:
`s.splitOn sub` has more than one piece exactly when `sub` occurs in `s`. -/
def includes (s sub : String) : Bool :=
  (s.splitOn sub).length != 1

namespace Server

/-- Translation of `getMockResponse` from the server source: keyword-matched
canned replies, with an echo-style default. -/
def getMockResponse (message : String) : String :=
  let text := message.toLower
  if includes text "hi" || includes text "hello" then
    "Hello! How can I help you today? I am your AI assistant and ready to answer any questions you might have."
  else if includes text "how are you" then
    "I\x27m doing great, thank you for asking! As an AI, I\x27m always ready and eager to help. What can I do for you today?"
  else if includes text "weather" then
    "I don\x27t have access to real-time weather data, but I\x27d recommend checking a weather service like weather.com or your phone\x27s weather app for accurate forecasts."
  else if includes text "help" then
    "I\x27d be happy to help! You can ask me questions about various topics, get explanations, or have a conversation. What would you like to know?"
  else if includes text "thank" then
    "You\x27re welcome! Is there anything else I can help you with?"
  else if includes text "name" then
    "I\x27m your friendly AI assistant! I\x27m here to help you with questions and have conversations."
  else if includes text "what can you do" then
    "I can help you with a variety of tasks! I can answer questions, have conversations, provide explanations, and more. Just ask me anything!"
  else
    "Thanks for your message: \"" ++ message ++ "\". I\x27m currently running in demo mode. To get real AI responses, make sure your Gemini API key from https://aistudio.google.com/app/apikey is set in the .env file!"

/-- Outcome of the upstream `generateContentStream` call: either the finite
sequence of text chunks it yields before finishing normally, or the chunks
it yields before the call (or the iteration over its stream) throws. -/
inductive UpstreamOutcome where
  | ok (chunks : List String)
  | failAfter (chunks : List String)
deriving DecidableEq, Repr

/-- The `fullResponse` accumulator of `streamGeminiResponse`: chunks are
appended only when truthy (non-empty). -/
def chunkAccum (chunks : List String) : String :=
  chunks.foldl (fun acc text => if text != "" then acc ++ text else acc) ""

/-- The `stream` frames forwarded by `streamGeminiResponse`: one per truthy
(non-empty) chunk, verbatim, in arrival order. -/
def streamChunkMsgs (chunks : List String) : List ServerMsg :=
  (chunks.filter (fun text => text != "")).map (fun text => ⟨"stream", some text⟩)

/-- Translation of `sendMockResponse`: emits a `thinking_done` frame with no
content key, then one `stream` frame per word of the canned response (each
word with a trailing space appended), then a `done` frame carrying the
canned response. `response.split(' ')` splits on every single space
character, which is `String.split` with the predicate `(· == ' ')`. -/
def sendMockResponse (userMessage : String) : List ServerMsg :=
  let response := getMockResponse userMessage
  let words := response.split (fun c => c == ' ')
  ⟨"thinking_done", none⟩ ::
    (words.map (fun word => ⟨"stream", some (word ++ " ")⟩) ++
      [⟨"done", some response⟩])

/-- Translation of `streamGeminiResponse`: emits `thinking_done` (no content
key), then forwards each truthy chunk as a `stream` frame while
accumulating it, then `done` with the accumulated text; if the upstream
call throws at any point, the remainder is replaced by a full
`sendMockResponse` run. -/
def streamGeminiResponse (outcome : UpstreamOutcome) (userMessage : String) : List ServerMsg :=
  match outcome with
  | .ok chunks =>
      ⟨"thinking_done", none⟩ ::
        (streamChunkMsgs chunks ++ [⟨"done", some (chunkAccum chunks)⟩])
  | .failAfter chunks =>
      ⟨"thinking_done", none⟩ ::
        (streamChunkMsgs chunks ++ sendMockResponse userMessage)

/-- Translation of `handleChatMessage`: emits the `thinking` frame, then
runs the Gemini path when `useAI && model` holds and the mock path
otherwise. -/
def handleChatMessage (useAI modelSet : Bool) (outcome : UpstreamOutcome)
    (userMessage : String) : List ServerMsg :=
  ⟨"thinking", some "Analyzing your question..."⟩ ::
    (if useAI && modelSet then streamGeminiResponse outcome userMessage
     else sendMockResponse userMessage)

/-- An inbound frame as seen by a receiver: either bytes that fail to
decode as JSON (`JSON.parse` throws), or a decoded object with a `type`
and a `content` string. -/
inductive Frame where
  | undecodable
  | decoded (type : String) (content : String)
deriving DecidableEq, Repr

/-- Translation of the server-side message event handler: an undecodable
frame is caught and answered with a single `error` frame; a decoded frame
is dispatched to `handleChatMessage` only when its type is `chat`, and is
otherwise ignored. -/
def serverOnMessage (useAI modelSet : Bool) (outcome : UpstreamOutcome) :
    Frame → List ServerMsg
  | .undecodable => [⟨"error", some "Failed to process message"⟩]
  | .decoded t c =>
      if t = "chat" then handleChatMessage useAI modelSet outcome c else []

/-- The banner frame sent on connection open. -/
def connectedMsg : ServerMsg := ⟨"connected", some "Connected to chat server"⟩

/-- Number of frames of a given type in an emitted sequence. -/
def countType (msgs : List ServerMsg) (t : String) : Nat :=
  (msgs.filter (fun m => m.type == t)).length

/-- Concatenation of the contents of all `stream` frames of a sequence. -/
def streamConcat (msgs : List ServerMsg) : String :=
  String.join ((msgs.filter (fun m => m.type == "stream")).map (fun m => m.content.getD ""))

/-- Contents of the `done` frames of a sequence. -/
def doneContents (msgs : List ServerMsg) : List String :=
  (msgs.filter (fun m => m.type == "done")).map (fun m => m.content.getD "")

/-- The frames of a sequence that precede its first `stream` frame. -/
def beforeFirstStream (msgs : List ServerMsg) : List ServerMsg :=
  msgs.takeWhile (fun m => m.type != "stream")

end Server

namespace Hook

/-- Ready state of the underlying browser WebSocket while it is referenced
by the hook (`wsRef` is nulled whenever the socket closes, so only the
CONNECTING and OPEN states are ever observed through it). -/
inductive ReadyState where
  | connecting
  | opened
deriving DecidableEq, Repr

/-- Static configuration of `useWebSocket` (read once at construction). -/
structure HookConfig where
  reconnectInterval : Nat
  maxReconnectAttempts : Nat
deriving DecidableEq, Repr

/-- Mutable state of one `useWebSocket` instance: `wsRef` (with the ready
state of the socket it points to), `reconnectAttemptsRef`, the timeout id
currently stored in `reconnectTimeoutRef` (it holds at most one id, and is
overwritten without cancellation by each new schedule), the set of retry
timeouts that have been created and have neither fired nor been cleared
(`liveTimers` — there can be several at once, because storing a new id in
the ref orphans a still-live earlier timeout), a counter supplying fresh
timeout ids, `mountedRef`, and the two `useState` flags. -/
structure HookState where
  ws : Option ReadyState
  reconnectAttempts : Nat
  reconnectTimeout : Option Nat
  liveTimers : List Nat
  nextTimer : Nat
  mounted : Bool
  isConnected : Bool
  isConnecting : Bool
deriving DecidableEq, Repr

/-- Translation of `connect`: a no-op when the referenced socket is OPEN or
CONNECTING; otherwise sets `isConnecting` and installs a fresh socket in
the CONNECTING state. It does not touch the retry timeout machinery. -/
def connect (s : HookState) : HookState :=
  if s.ws = some .opened then s
  else if s.ws = some .connecting then s
  else { s with isConnecting := true, ws := some .connecting }

/-- Translation of the `ws.onopen` handler (the socket has just moved to
OPEN): when mounted, records the connected state and resets the attempt
counter. -/
def onopen (s : HookState) : HookState :=
  if s.mounted then
    { s with isConnected := true, isConnecting := false,
             reconnectAttempts := 0, ws := some .opened }
  else s

/-- Translation of the `ws.onclose` handler: when mounted, clears the
connection flags and `wsRef`, then, only while the attempt counter is
below the maximum, increments the counter and calls `setTimeout`: a fresh
timeout becomes live and its id is stored in `reconnectTimeoutRef`,
overwriting the previous content of the ref without any `clearTimeout` —
a timeout that was still live stays live but is no longer reachable
through the ref. -/
def onclose (cfg : HookConfig) (s : HookState) : HookState :=
  if s.mounted then
    let s1 : HookState := { s with isConnected := false, isConnecting := false, ws := none }
    if s1.mounted && decide (s1.reconnectAttempts < cfg.maxReconnectAttempts) then
      { s1 with reconnectAttempts := s1.reconnectAttempts + 1,
                reconnectTimeout := some s1.nextTimer,
                liveTimers := s1.nextTimer :: s1.liveTimers,
                nextTimer := s1.nextTimer + 1 }
    else s1
  else s

/-- A retry timeout with a given id firing: a cleared or already-fired id
does nothing; a live one fires exactly once (it leaves the live set) and
runs the scheduled callback, which calls `connect` only while mounted.
The source does not null `reconnectTimeoutRef` when its timeout fires; the
ref may keep holding the fired id, and a later `clearTimeout` on it is a
harmless no-op, which the erase below models. -/
def timerFire (id : Nat) (s : HookState) : HookState :=
  if id ∈ s.liveTimers then
    let s1 : HookState := { s with liveTimers := s.liveTimers.erase id }
    if s1.mounted then connect s1 else s1
  else s

/-- Translation of `disconnect`: calls `clearTimeout` on the single timeout
id currently stored in `reconnectTimeoutRef` (if any) and nulls the ref —
an orphaned earlier timeout that is no longer stored there survives — then
pins the attempt counter to the maximum, closes and drops the socket, and
clears both state flags. `mountedRef` is not touched. -/
def disconnect (cfg : HookConfig) (s : HookState) : HookState :=
  let s1 : HookState :=
    match s.reconnectTimeout with
    | some id => { s with liveTimers := s.liveTimers.erase id, reconnectTimeout := none }
    | none => s
  { s1 with reconnectAttempts := cfg.maxReconnectAttempts,
            ws := none,
            isConnected := false,
            isConnecting := false }

/-- Translation of `sendMessage`: transmits (returning `true`) only when the
referenced socket is OPEN, otherwise returns `false`. -/
def sendMessage (s : HookState) : Bool :=
  s.ws == some .opened

/-- Translation of the `ws.onmessage` handler: bytes that fail `JSON.parse`
are dropped (the registered handler is not invoked); any decoded object is
passed to the registered handler unvalidated, as a `type`/`content` pair. -/
def onmessage : Server.Frame → Option (String × String)
  | .undecodable => none
  | .decoded t c => some (t, c)

/-- Events not initiated by the caller: the close event of the underlying
socket firing the `onclose` handler, and the retry timeout with a given id
expiring. -/
inductive SpontEvent where
  | socketClose
  | timerTick (id : Nat)
deriving DecidableEq, Repr

/-- One spontaneous event applied to the hook state. -/
def spontStep (cfg : HookConfig) : SpontEvent → HookState → HookState
  | .socketClose, s => onclose cfg s
  | .timerTick id, s => timerFire id s

/-- A sequence of spontaneous events applied in order. -/
def runSpont (cfg : HookConfig) : List SpontEvent → HookState → HookState
  | [], s => s
  | e :: es, s => runSpont cfg es (spontStep cfg e s)

/-- Whether an event makes a scheduled reconnect actually fire: only a
still-live timeout expiring while mounted reaches the `connect()` call. -/
def reconnectFires : SpontEvent → HookState → Bool
  | .timerTick id, s => decide (id ∈ s.liveTimers) && s.mounted
  | .socketClose, _ => false

/-- Whether any event of a sequence makes a scheduled reconnect fire. -/
def anyReconnectFires (cfg : HookConfig) : List SpontEvent → HookState → Bool
  | [], _ => false
  | e :: es, s => reconnectFires e s || anyReconnectFires cfg es (spontStep cfg e s)

/-- Whether an event schedules a retry: a close event handled while mounted
with the attempt counter below the maximum. -/
def schedulesRetry (cfg : HookConfig) : SpontEvent → HookState → Bool
  | .socketClose, s => s.mounted && decide (s.reconnectAttempts < cfg.maxReconnectAttempts)
  | .timerTick _, _ => false

/-- Number of retries scheduled along a sequence of spontaneous events. -/
def scheduledCount (cfg : HookConfig) : List SpontEvent → HookState → Nat
  | [], _ => 0
  | e :: es, s =>
      (if schedulesRetry cfg e s then 1 else 0) + scheduledCount cfg es (spontStep cfg e s)

end Hook

namespace ChatUI

/-- The client-side `WebSocketMessage` as actually delivered by the hook:
`JSON.parse` performs no validation, so the `type` is an arbitrary string. -/
structure WebSocketMessage where
  type : String
  content : String
deriving DecidableEq, Repr

/-- The UI-facing `Message` record of `Chat.tsx` (`timestamp` is the
creation time; `isStreaming` and `displayContent` are optional fields). -/
structure Message where
  id : String
  type : String
  content : String
  timestamp : Nat
  isStreaming : Option Bool
  displayContent : Option String
deriving DecidableEq, Repr

/-- The component state touched by `handleWebSocketMessage`: the message
list, the waiting flag, the thinking-indicator text, and
`currentAssistantIdRef`. -/
structure ChatState where
  messages : List Message
  isWaiting : Bool
  thinkingText : Option String
  currentAssistantId : Option String
deriving DecidableEq, Repr

/-- Translation of `handleWebSocketMessage` from `Chat.tsx`; `now` is the
value of `Date.now()` used for fresh ids and timestamps. A `stream` frame
clears the thinking text and either creates the assistant message (first
fragment of the turn) or appends the fragment to it; `done` freezes the
in-progress message if there is one and clears the waiting state; an
unknown type matches no `switch` case and changes nothing. -/
def handleWebSocketMessage (now : Nat) (message : WebSocketMessage) (s : ChatState) : ChatState :=
  match message.type with
  | "connected" => s
  | "thinking" => { s with thinkingText := some message.content }
  | "thinking_done" => s
  | "stream" =>
      let s1 : ChatState := { s with thinkingText := none }
      match s1.currentAssistantId with
      | none =>
          let assistantId := "assistant-" ++ toString now
          { s1 with
              currentAssistantId := some assistantId,
              messages := s1.messages ++
                [{ id := assistantId, type := "assistant", content := message.content,
                   timestamp := now, isStreaming := some true,
                   displayContent := some message.content }] }
      | some aid =>
          { s1 with
              messages := s1.messages.map (fun msg =>
                if msg.id = aid then
                  { msg with
                      displayContent := some (msg.displayContent.getD "" ++ message.content),
                      content := msg.content ++ message.content }
                else msg) }
  | "done" =>
      let s1 : ChatState :=
        match s.currentAssistantId with
        | some aid =>
            { s with
                messages := s.messages.map (fun msg =>
                  if msg.id = aid then { msg with isStreaming := some false } else msg),
                currentAssistantId := none }
        | none => s
      { s1 with thinkingText := none, isWaiting := false }
  | "error" =>
      { s with
          messages := s.messages ++
            [{ id := "error-" ++ toString now, type := "assistant",
               content := if message.content = "" then "Something went wrong. Please try again."
                          else message.content,
               timestamp := now, isStreaming := none, displayContent := none }],
          thinkingText := none, currentAssistantId := none, isWaiting := false }
  | _ => s

/-- A sequence of inbound messages folded through the handler, each with
its own `Date.now()` value. -/
def runMessages : List (Nat × WebSocketMessage) → ChatState → ChatState
  | [], s => s
  | (n, m) :: rest, s => runMessages rest (handleWebSocketMessage n m s)

end ChatUI

/-! ### String helper lemmas -/

theorem join_cons (a : String) (l : List String) :
    String.join (a :: l) = a ++ String.join l := by
  apply String.ext
  simp [String.data_join]

theorem join_append (l₁ l₂ : List String) :
    String.join (l₁ ++ l₂) = String.join l₁ ++ String.join l₂ := by
  apply String.ext
  simp [String.data_join]

theorem flatten_map_splitOnP {α : Type} [BEq α] [LawfulBEq α] (x : α) (cs : List α) :
    ((cs.splitOnP (· == x)).map (· ++ [x])).flatten = cs ++ [x] := by
  induction cs with
  | nil => simp
  | cons c cs ih =>
    rw [List.splitOnP_cons]
    by_cases h : (c == x) = true
    · rw [if_pos h]
      have hc : c = x := eq_of_beq h
      simp [ih, hc]
    · rw [if_neg h]
      cases hsp : cs.splitOnP (· == x) with
      | nil => exact absurd hsp (List.splitOnP_ne_nil _ cs)
      | cons hd tl =>
        rw [hsp] at ih
        simp only [List.modifyHead, List.map_cons, List.flatten_cons, List.cons_append] at ih ⊢
        rw [ih]

theorem split_space_join (s : String) :
    String.join ((s.split (fun c => c == ' ')).map (fun w => w ++ " ")) = s ++ " " := by
  apply String.ext
  rw [String.split_of_valid]
  simp only [List.map_map, String.data_join, Function.comp, String.data_append]
  exact flatten_map_splitOnP ' ' s.data

theorem split_length_pos (s : String) (p : Char → Bool) : 0 < (s.split p).length := by
  rw [String.split_of_valid]
  simp only [List.length_map]
  exact List.length_pos.mpr (List.splitOnP_ne_nil p s.data)

/-! ### Observation lemmas for emitted server frame sequences -/

namespace Server

theorem filter_type_map (ty t : String) (g : String → Option String) (ws : List String) :
    ((ws.map fun w => (⟨ty, g w⟩ : ServerMsg)).filter (fun m => m.type == t)) =
      if (ty == t) = true then ws.map (fun w => ⟨ty, g w⟩) else [] := by
  induction ws with
  | nil => by_cases h : (ty == t) = true <;> simp [h]
  | cons w ws ih =>
    by_cases h : (ty == t) = true <;>
      simp [List.filter_cons, h, ih]

theorem countType_cons (m : ServerMsg) (rest : List ServerMsg) (t : String) :
    countType (m :: rest) t = (if m.type == t then 1 else 0) + countType rest t := by
  by_cases h : (m.type == t) = true <;>
    simp [countType, List.filter_cons, h, Nat.add_comm]

theorem countType_append (a b : List ServerMsg) (t : String) :
    countType (a ++ b) t = countType a t + countType b t := by
  simp [countType, List.filter_append]

theorem countType_map (ty t : String) (g : String → Option String) (ws : List String) :
    countType (ws.map fun w => ⟨ty, g w⟩) t = if (ty == t) = true then ws.length else 0 := by
  rw [countType, filter_type_map]
  by_cases h : (ty == t) = true <;> simp [h]

theorem streamConcat_cons (m : ServerMsg) (rest : List ServerMsg) :
    streamConcat (m :: rest) =
      (if m.type == "stream" then m.content.getD "" else "") ++ streamConcat rest := by
  by_cases h : (m.type == "stream") = true <;>
    simp [streamConcat, List.filter_cons, h, join_cons]

theorem streamConcat_append (a b : List ServerMsg) :
    streamConcat (a ++ b) = streamConcat a ++ streamConcat b := by
  simp [streamConcat, List.filter_append, join_append]

theorem streamConcat_map (g : String → Option String) (ws : List String) :
    streamConcat (ws.map fun w => ⟨"stream", g w⟩) =
      String.join (ws.map fun w => (g w).getD "") := by
  rw [streamConcat, filter_type_map]
  simp [List.map_map, Function.comp_def]

theorem doneContents_cons (m : ServerMsg) (rest : List ServerMsg) :
    doneContents (m :: rest) =
      (if m.type == "done" then [m.content.getD ""] else []) ++ doneContents rest := by
  by_cases h : (m.type == "done") = true <;>
    simp [doneContents, List.filter_cons, h]

theorem doneContents_append (a b : List ServerMsg) :
    doneContents (a ++ b) = doneContents a ++ doneContents b := by
  simp [doneContents, List.filter_append]

theorem doneContents_map (ty : String) (g : String → Option String) (ws : List String)
    (h : (ty == "done") = false) :
    doneContents (ws.map fun w => ⟨ty, g w⟩) = [] := by
  rw [doneContents, filter_type_map, h]
  simp

theorem chunkAccum_go (cs : List String) (acc : String) :
    cs.foldl (fun acc text => if text != "" then acc ++ text else acc) acc =
      acc ++ String.join (cs.filter (fun t => t != "")) := by
  induction cs generalizing acc with
  | nil => simp [String.join]
  | cons c cs ih =>
    rw [List.foldl_cons, List.filter_cons]
    by_cases h : (c != "") = true
    · rw [if_pos h, if_pos h, ih, join_cons, String.append_assoc]
    · rw [if_neg h, if_neg h, ih]

theorem chunkAccum_eq_join (chunks : List String) :
    chunkAccum chunks = String.join (chunks.filter (fun t => t != "")) := by
  rw [chunkAccum, chunkAccum_go]
  simp

theorem streamConcat_chunkMsgs (chunks : List String) :
    streamConcat (streamChunkMsgs chunks) = chunkAccum chunks := by
  rw [streamChunkMsgs, streamConcat_map, chunkAccum_eq_join]
  simp

theorem handleChat_mock_eq (modelSet : Bool) (outcome : UpstreamOutcome) (u : String) :
    handleChatMessage false modelSet outcome u =
      ⟨"thinking", some "Analyzing your question..."⟩ :: sendMockResponse u := by
  simp [handleChatMessage]

theorem handleChat_gemini_eq (outcome : UpstreamOutcome) (u : String) :
    handleChatMessage true true outcome u =
      ⟨"thinking", some "Analyzing your question..."⟩ :: streamGeminiResponse outcome u := by
  simp [handleChatMessage]

theorem countType_nil (t : String) : countType [] t = 0 := rfl

theorem streamConcat_nil : streamConcat [] = "" := rfl

theorem doneContents_nil : doneContents [] = [] := rfl

theorem streamGemini_ok_eq (chunks : List String) (u : String) :
    streamGeminiResponse (.ok chunks) u =
      ⟨"thinking_done", none⟩ ::
        (streamChunkMsgs chunks ++ [⟨"done", some (chunkAccum chunks)⟩]) := rfl

theorem streamGemini_fail_eq (chunks : List String) (u : String) :
    streamGeminiResponse (.failAfter chunks) u =
      ⟨"thinking_done", none⟩ :: (streamChunkMsgs chunks ++ sendMockResponse u) := rfl

theorem streamConcat_mock (u : String) :
    streamConcat (sendMockResponse u) = getMockResponse u ++ " " := by
  simp only [sendMockResponse, streamConcat_cons, streamConcat_append, streamConcat_map,
    streamConcat_nil]
  simp only [Option.getD_some]
  simp
  exact split_space_join _

theorem doneContents_mock (u : String) :
    doneContents (sendMockResponse u) = [getMockResponse u] := by
  simp only [sendMockResponse, doneContents_cons, doneContents_append, doneContents_nil]
  rw [doneContents_map _ _ _ (by decide)]
  simp

theorem countType_mock_td (u : String) :
    countType (sendMockResponse u) "thinking_done" = 1 := by
  simp [sendMockResponse, countType_cons, countType_append, countType_map, countType_nil]

theorem countType_mock_done (u : String) :
    countType (sendMockResponse u) "done" = 1 := by
  simp [sendMockResponse, countType_cons, countType_append, countType_map, countType_nil]

theorem countType_mock_stream (u : String) :
    countType (sendMockResponse u) "stream" =
      ((getMockResponse u).split (fun c => c == ' ')).length := by
  simp [sendMockResponse, countType_cons, countType_append, countType_map, countType_nil]

theorem countType_mock_error (u : String) :
    countType (sendMockResponse u) "error" = 0 := by
  simp [sendMockResponse, countType_cons, countType_append, countType_map, countType_nil]

theorem countType_chunkMsgs (chunks : List String) (t : String) :
    countType (streamChunkMsgs chunks) t =
      if ("stream" == t) = true then (chunks.filter (fun c => c != "")).length else 0 := by
  simp only [streamChunkMsgs]
  rw [countType_map]

theorem doneContents_chunkMsgs (chunks : List String) :
    doneContents (streamChunkMsgs chunks) = [] := by
  simp only [streamChunkMsgs]
  exact doneContents_map _ _ _ (by decide)

theorem getLast?_cons_concat {α : Type} (a d : α) (l : List α) :
    (a :: (l ++ [d])).getLast? = some d := by
  rw [show a :: (l ++ [d]) = (a :: l) ++ [d] from rfl]
  exact List.getLast?_concat _

theorem getLast?_mock (u : String) :
    (sendMockResponse u).getLast? = some ⟨"done", some (getMockResponse u)⟩ := by
  simp only [sendMockResponse]
  exact getLast?_cons_concat _ _ _

theorem getLast?_cons_mock (a : ServerMsg) (u : String) :
    (a :: sendMockResponse u).getLast? = some ⟨"done", some (getMockResponse u)⟩ := by
  simp only [sendMockResponse, List.getLast?_cons_cons]
  exact getLast?_cons_concat _ _ _

theorem getLast?_cons_fail (a : ServerMsg) (chunks : List String) (u : String) :
    (a :: streamGeminiResponse (.failAfter chunks) u).getLast? =
      some ⟨"done", some (getMockResponse u)⟩ := by
  rw [streamGemini_fail_eq]
  simp [List.getLast?_cons_cons, List.getLast?_cons, List.getLast?_append, getLast?_mock]

theorem beforeFS_cons_nonstream (m : ServerMsg) (rest : List ServerMsg)
    (h : (m.type != "stream") = true) :
    beforeFirstStream (m :: rest) = m :: beforeFirstStream rest := by
  simp [beforeFirstStream, h]

theorem beforeFS_map_stream (g : String → Option String) (ws : List String)
    (rest : List ServerMsg) :
    beforeFirstStream ((ws.map fun w => (⟨"stream", g w⟩ : ServerMsg)) ++ rest) =
      if ws.isEmpty = true then beforeFirstStream rest else [] := by
  cases ws <;> simp [beforeFirstStream]

theorem beforeFS_nil : beforeFirstStream [] = [] := rfl

theorem content_iff_mock (u : String) :
    ∀ m ∈ sendMockResponse u, (m.content = none ↔ m.type = "thinking_done") := by
  intro m hm
  simp only [sendMockResponse, List.mem_cons, List.mem_append, List.mem_map,
    List.mem_singleton] at hm
  rcases hm with rfl | ⟨w, _, rfl⟩ | rfl | h0
  · simp
  · simp
  · simp
  · exact absurd h0 (List.not_mem_nil m)

theorem content_iff_handleChat (useAI modelSet : Bool) (outcome : UpstreamOutcome) (u : String) :
    ∀ m ∈ handleChatMessage useAI modelSet outcome u,
      (m.content = none ↔ m.type = "thinking_done") := by
  intro m hm
  simp only [handleChatMessage] at hm
  rcases List.mem_cons.mp hm with rfl | hm'
  · simp
  · by_cases hb : (useAI && modelSet) = true
    · rw [if_pos hb] at hm'
      cases outcome with
      | ok chunks =>
        rw [streamGemini_ok_eq] at hm'
        rcases List.mem_cons.mp hm' with rfl | hm2
        · simp
        · rcases List.mem_append.mp hm2 with hm3 | hm4
          · simp only [streamChunkMsgs, List.mem_map] at hm3
            obtain ⟨w, _, rfl⟩ := hm3
            simp
          · rw [List.mem_singleton] at hm4
            subst hm4
            simp
      | failAfter chunks =>
        rw [streamGemini_fail_eq] at hm'
        rcases List.mem_cons.mp hm' with rfl | hm2
        · simp
        · rcases List.mem_append.mp hm2 with hm3 | hm4
          · simp only [streamChunkMsgs, List.mem_map] at hm3
            obtain ⟨w, _, rfl⟩ := hm3
            simp
          · exact content_iff_mock u m hm4
    · rw [if_neg hb] at hm'
      exact content_iff_mock u m hm'

end Server

/-! ### Claims about the server protocol handler -/

/-- Claim C1 is false as stated: in the fallback path every word is
streamed with a trailing space appended, so the concatenation of the
`stream` contents for the turn on input "hi" (no upstream configured) is
the canned response followed by a space, while `done` carries the canned
response itself. -/
theorem claim_C1_counterexample :
    Server.doneContents (Server.handleChatMessage false false (.ok []) "hi") =
      [Server.getMockResponse "hi"] ∧
    Server.streamConcat (Server.handleChatMessage false false (.ok []) "hi") ≠
      Server.getMockResponse "hi" := by
  constructor
  · rw [Server.handleChat_mock_eq, Server.doneContents_cons]
    simp [Server.doneContents_mock]
  · rw [Server.handleChat_mock_eq, Server.streamConcat_cons]
    simp only [Server.streamConcat_mock]
    intro hcontra
    simp at hcontra
    have hlen := congrArg String.length hcontra
    simp [String.length_append] at hlen
    exact absurd hlen (by decide)

/-- Claim C1 (amended): every chat turn emits exactly one `done` frame. On
the upstream success path its content equals the concatenation of the
`stream` contents of the turn; on the pure fallback path the concatenation
of the `stream` contents equals the `done` content followed by one extra
trailing space; and on the path that falls back after a partial upstream
failure it equals the leaked upstream prefix, then the `done` content,
then the trailing space. -/
theorem claim_C1_amended (chunks : List String) (u : String) (modelSet : Bool)
    (outcome : Server.UpstreamOutcome) :
    (Server.countType (Server.handleChatMessage true true (.ok chunks) u) "done" = 1 ∧
      Server.doneContents (Server.handleChatMessage true true (.ok chunks) u) =
        [Server.streamConcat (Server.handleChatMessage true true (.ok chunks) u)]) ∧
    (Server.countType (Server.handleChatMessage false modelSet outcome u) "done" = 1 ∧
      Server.doneContents (Server.handleChatMessage false modelSet outcome u) =
        [Server.getMockResponse u] ∧
      Server.streamConcat (Server.handleChatMessage false modelSet outcome u) =
        Server.getMockResponse u ++ " ") ∧
    (Server.countType (Server.handleChatMessage true true (.failAfter chunks) u) "done" = 1 ∧
      Server.doneContents (Server.handleChatMessage true true (.failAfter chunks) u) =
        [Server.getMockResponse u] ∧
      Server.streamConcat (Server.handleChatMessage true true (.failAfter chunks) u) =
        Server.chunkAccum chunks ++ (Server.getMockResponse u ++ " ")) := by
  refine ⟨⟨?_, ?_⟩, ⟨?_, ?_, ?_⟩, ⟨?_, ?_, ?_⟩⟩
  · rw [Server.handleChat_gemini_eq, Server.streamGemini_ok_eq]
    simp [Server.countType_cons, Server.countType_append, Server.countType_chunkMsgs,
      Server.countType_nil]
  · rw [Server.handleChat_gemini_eq, Server.streamGemini_ok_eq]
    simp [Server.doneContents_cons, Server.doneContents_append, Server.doneContents_chunkMsgs,
      Server.doneContents_nil, Server.streamConcat_cons, Server.streamConcat_append,
      Server.streamConcat_chunkMsgs, Server.streamConcat_nil]
  · rw [Server.handleChat_mock_eq]
    simp [Server.countType_cons, Server.countType_mock_done]
  · rw [Server.handleChat_mock_eq]
    simp [Server.doneContents_cons, Server.doneContents_mock]
  · rw [Server.handleChat_mock_eq]
    simp [Server.streamConcat_cons, Server.streamConcat_mock]
  · rw [Server.handleChat_gemini_eq, Server.streamGemini_fail_eq]
    simp [Server.countType_cons, Server.countType_append, Server.countType_chunkMsgs,
      Server.countType_mock_done]
  · rw [Server.handleChat_gemini_eq, Server.streamGemini_fail_eq]
    simp [Server.doneContents_cons, Server.doneContents_append, Server.doneContents_chunkMsgs,
      Server.doneContents_mock]
  · rw [Server.handleChat_gemini_eq, Server.streamGemini_fail_eq]
    simp [Server.streamConcat_cons, Server.streamConcat_append, Server.streamConcat_chunkMsgs,
      Server.streamConcat_mock]

/-- Claim C3 is false as stated: when the upstream streaming call raises
after `thinking_done` was already sent, the fallback emits a second
`thinking_done`, so on input "hi" with one leaked chunk the turn carries
two `thinking_done` frames, not exactly one. -/
theorem claim_C3_counterexample :
    ¬ Server.countType (Server.handleChatMessage true true (.failAfter ["Hel"]) "hi")
        "thinking_done" = 1 := by
  rw [Server.handleChat_gemini_eq, Server.streamGemini_fail_eq]
  simp [Server.countType_cons, Server.countType_append, Server.countType_chunkMsgs,
    Server.countType_mock_td]

/-- Claim C3 (amended): on the upstream success path and on the pure
fallback path the server emits exactly one `thinking_done` per turn and it
precedes the first `stream` frame; but on the path that falls back after a
partial upstream failure the turn carries two `thinking_done` frames (the
second one after the leaked upstream chunks). -/
theorem claim_C3_amended (chunks : List String) (u : String) (modelSet : Bool)
    (outcome : Server.UpstreamOutcome) :
    (Server.countType (Server.handleChatMessage true true (.ok chunks) u)
        "thinking_done" = 1 ∧
      Server.countType
        (Server.beforeFirstStream (Server.handleChatMessage true true (.ok chunks) u))
        "thinking_done" = 1) ∧
    (Server.countType (Server.handleChatMessage false modelSet outcome u)
        "thinking_done" = 1 ∧
      Server.countType
        (Server.beforeFirstStream (Server.handleChatMessage false modelSet outcome u))
        "thinking_done" = 1) ∧
    Server.countType (Server.handleChatMessage true true (.failAfter chunks) u)
      "thinking_done" = 2 := by
  refine ⟨⟨?_, ?_⟩, ⟨?_, ?_⟩, ?_⟩
  · rw [Server.handleChat_gemini_eq, Server.streamGemini_ok_eq]
    simp [Server.countType_cons, Server.countType_append, Server.countType_chunkMsgs,
      Server.countType_nil]
  · rw [Server.handleChat_gemini_eq, Server.streamGemini_ok_eq]
    rw [Server.beforeFS_cons_nonstream _ _ (by decide), Server.beforeFS_cons_nonstream _ _ (by decide)]
    simp only [Server.streamChunkMsgs]
    rw [Server.beforeFS_map_stream]
    by_cases hE : ((chunks.filter (fun c => c != "")).isEmpty) = true <;>
      simp [hE, Server.countType_cons, Server.countType_nil, Server.beforeFirstStream]
  · rw [Server.handleChat_mock_eq]
    simp [Server.countType_cons, Server.countType_mock_td]
  · rw [Server.handleChat_mock_eq]
    simp only [Server.sendMockResponse]
    rw [Server.beforeFS_cons_nonstream _ _ (by decide), Server.beforeFS_cons_nonstream _ _ (by decide)]
    rw [Server.beforeFS_map_stream]
    by_cases hE : (((Server.getMockResponse u).split (fun c => c == ' ')).isEmpty) = true <;>
      simp [hE, Server.countType_cons, Server.countType_nil, Server.beforeFirstStream]
  · rw [Server.handleChat_gemini_eq, Server.streamGemini_fail_eq]
    simp [Server.countType_cons, Server.countType_append, Server.countType_chunkMsgs,
      Server.countType_mock_td]

/-- Claim C4 is false as stated: the `thinking_done` frames are built as
object literals with no `content` key at all, so a frame the server sends
during the fallback turn for "hi" has no content field. -/
theorem claim_C4_counterexample :
    (⟨"thinking_done", none⟩ : FileView.ServerMsg) ∈
      Server.handleChatMessage false false (.ok []) "hi" ∧
    (⟨"thinking_done", none⟩ : FileView.ServerMsg).content = none := by
  constructor
  · rw [Server.handleChat_mock_eq]
    simp [Server.sendMockResponse]
  · rfl

/-- Claim C4 (amended): every frame the server sends carries a `content`
field, except the `thinking_done` frames, which are exactly the frames
with no content field (in both the upstream and fallback paths). -/
theorem claim_C4_amended (useAI modelSet : Bool) (outcome : Server.UpstreamOutcome)
    (frame : Server.Frame) :
    ∀ m ∈ Server.connectedMsg :: Server.serverOnMessage useAI modelSet outcome frame,
      (m.content = none ↔ m.type = "thinking_done") := by
  intro m hm
  rcases List.mem_cons.mp hm with rfl | hm'
  · simp [Server.connectedMsg]
  · cases frame with
    | undecodable =>
      simp only [Server.serverOnMessage, List.mem_singleton] at hm'
      subst hm'
      simp
    | decoded t c =>
      simp only [Server.serverOnMessage] at hm'
      by_cases ht : t = "chat"
      · rw [if_pos ht] at hm'
        exact Server.content_iff_handleChat _ _ _ _ m hm'
      · rw [if_neg ht] at hm'
        simp at hm'

/-- Witness for the amended claim C4 at a concrete frame: the `connected`
banner satisfies the content-presence invariant. -/
theorem claim_C4_witness :
    ((Server.connectedMsg).content = none ↔ (Server.connectedMsg).type = "thinking_done") :=
  claim_C4_amended false false (.ok []) .undecodable Server.connectedMsg
    (List.mem_cons_self _ _)

/-- Claim C8: whenever the upstream is unavailable (`useAI && model` is
false) or the upstream streaming call raises, the client sees no `error`
frame for the turn: the handler degrades to the local fallback generator
and the turn still carries at least one `stream` frame and ends with
exactly one `done` frame carrying the fallback text. -/
theorem claim_C8 (useAI modelSet : Bool) (outcome : Server.UpstreamOutcome)
    (chunks : List String) (u : String)
    (h : (useAI && modelSet) = false ∨ outcome = .failAfter chunks) :
    Server.countType (Server.handleChatMessage useAI modelSet outcome u) "error" = 0 ∧
    Server.countType (Server.handleChatMessage useAI modelSet outcome u) "done" = 1 ∧
    1 ≤ Server.countType (Server.handleChatMessage useAI modelSet outcome u) "stream" ∧
    (Server.handleChatMessage useAI modelSet outcome u).getLast? =
      some ⟨"done", some (Server.getMockResponse u)⟩ := by
  by_cases hb : (useAI && modelSet) = true
  · rcases h with hfalse | hout
    · rw [hb] at hfalse
      cases hfalse
    · subst hout
      simp only [Server.handleChatMessage]
      rw [if_pos hb]
      refine ⟨?_, ?_, ?_, ?_⟩
      · rw [Server.streamGemini_fail_eq]
        simp [Server.countType_cons, Server.countType_append, Server.countType_chunkMsgs,
          Server.countType_mock_error]
      · rw [Server.streamGemini_fail_eq]
        simp [Server.countType_cons, Server.countType_append, Server.countType_chunkMsgs,
          Server.countType_mock_done]
      · rw [Server.streamGemini_fail_eq]
        have hp := split_length_pos (Server.getMockResponse u) (fun c => c == ' ')
        simp [Server.countType_cons, Server.countType_append, Server.countType_chunkMsgs,
          Server.countType_mock_stream]
        omega
      · exact Server.getLast?_cons_fail _ chunks u
  · simp only [Server.handleChatMessage]
    rw [if_neg hb]
    refine ⟨?_, ?_, ?_, ?_⟩
    · simp [Server.countType_cons, Server.countType_mock_error]
    · simp [Server.countType_cons, Server.countType_mock_done]
    · have hp := split_length_pos (Server.getMockResponse u) (fun c => c == ' ')
      simp [Server.countType_cons, Server.countType_mock_stream]
      omega
    · exact Server.getLast?_cons_mock _ u

/-- Witness for claim C8 at a concrete turn: no upstream configured,
input "hi". -/
theorem claim_C8_witness :
    ((false && false) = false ∨ Server.UpstreamOutcome.ok ([] : List String) = .failAfter []) ∧
    (Server.countType (Server.handleChatMessage false false (.ok []) "hi") "error" = 0 ∧
     Server.countType (Server.handleChatMessage false false (.ok []) "hi") "done" = 1 ∧
     1 ≤ Server.countType (Server.handleChatMessage false false (.ok []) "hi") "stream" ∧
     (Server.handleChatMessage false false (.ok []) "hi").getLast? =
       some ⟨"done", some (Server.getMockResponse "hi")⟩) :=
  ⟨Or.inl rfl, claim_C8 false false (.ok []) [] "hi" (Or.inl rfl)⟩

/-! ### Lemmas about the reconnecting hook state machine -/

namespace Hook

theorem connect_attempts (s : HookState) :
    (connect s).reconnectAttempts = s.reconnectAttempts := by
  unfold connect
  split
  · rfl
  · split <;> rfl

theorem connect_noop (s : HookState)
    (h : s.ws = some .connecting ∨ s.ws = some .opened) :
    connect s = s := by
  unfold connect
  rcases h with h | h <;> simp [h]

theorem disconnect_attempts (cfg : HookConfig) (s : HookState) :
    (disconnect cfg s).reconnectAttempts = cfg.maxReconnectAttempts := by
  cases hr : s.reconnectTimeout <;> simp [disconnect, hr]

theorem disconnect_liveTimers_nil (cfg : HookConfig) (s : HookState)
    (horph : ∀ t ∈ s.liveTimers, s.reconnectTimeout = some t)
    (hnd : s.liveTimers.Nodup) :
    (disconnect cfg s).liveTimers = [] := by
  cases hr : s.reconnectTimeout with
  | none =>
      have hnil : s.liveTimers = [] := by
        rw [List.eq_nil_iff_forall_not_mem]
        intro t ht
        have := horph t ht
        rw [hr] at this
        cases this
      simp [disconnect, hr, hnil]
  | some id =>
      simp only [disconnect, hr]
      rw [List.eq_nil_iff_forall_not_mem]
      intro t ht
      have ht2 := hnd.mem_erase_iff.mp ht
      have := horph t ht2.2
      rw [hr] at this
      exact ht2.1 (Option.some.inj this).symm

theorem spontStep_noTimers (cfg : HookConfig) (e : SpontEvent) (s : HookState)
    (h1 : s.liveTimers = []) (h2 : s.reconnectAttempts = cfg.maxReconnectAttempts) :
    (spontStep cfg e s).liveTimers = [] ∧
      (spontStep cfg e s).reconnectAttempts = cfg.maxReconnectAttempts := by
  cases e with
  | socketClose =>
      simp only [spontStep, onclose]
      split
      · simp [h1, h2]
      · exact ⟨h1, h2⟩
  | timerTick id =>
      simp only [spontStep, timerFire, h1]
      simp
      exact ⟨h1, h2⟩

theorem anyReconnectFires_noTimers (cfg : HookConfig) (evs : List SpontEvent) :
    ∀ s : HookState, s.liveTimers = [] →
      s.reconnectAttempts = cfg.maxReconnectAttempts →
      anyReconnectFires cfg evs s = false := by
  induction evs with
  | nil => intro s _ _; rfl
  | cons e es ih =>
      intro s h1 h2
      have hp := spontStep_noTimers cfg e s h1 h2
      simp only [anyReconnectFires]
      rw [ih _ hp.1 hp.2]
      cases e with
      | socketClose => simp [reconnectFires]
      | timerTick id => simp [reconnectFires, h1]

theorem spontStep_attempts (cfg : HookConfig) (e : SpontEvent) (s : HookState) :
    (spontStep cfg e s).reconnectAttempts =
      s.reconnectAttempts + (if schedulesRetry cfg e s then 1 else 0) := by
  cases e with
  | socketClose =>
      simp only [spontStep, onclose, schedulesRetry]
      by_cases hm : s.mounted = true
      · rw [if_pos hm]
        by_cases hl : decide (s.reconnectAttempts < cfg.maxReconnectAttempts) = true
        · simp [hm, hl]
        · simp [hm, hl]
      · rw [if_neg hm]
        simp_all
  | timerTick id =>
      simp only [spontStep, timerFire, schedulesRetry]
      split
      · split
        · rw [connect_attempts]
          simp
        · simp
      · simp

theorem spontStep_attempts_le (cfg : HookConfig) (e : SpontEvent) (s : HookState)
    (h : s.reconnectAttempts ≤ cfg.maxReconnectAttempts) :
    (spontStep cfg e s).reconnectAttempts ≤ cfg.maxReconnectAttempts := by
  rw [spontStep_attempts]
  by_cases hs : schedulesRetry cfg e s = true
  · have hlt : s.reconnectAttempts < cfg.maxReconnectAttempts := by
      cases e with
      | socketClose =>
          have := hs
          simp [schedulesRetry] at this
          exact this.2
      | timerTick id => simp [schedulesRetry] at hs
    rw [if_pos hs]
    omega
  · rw [if_neg hs]
    omega

theorem runSpont_attempts (cfg : HookConfig) (evs : List SpontEvent) :
    ∀ s : HookState, (runSpont cfg evs s).reconnectAttempts =
      s.reconnectAttempts + scheduledCount cfg evs s := by
  induction evs with
  | nil => intro s; rfl
  | cons e es ih =>
      intro s
      simp only [runSpont, scheduledCount]
      rw [ih, spontStep_attempts, Nat.add_assoc]

theorem runSpont_attempts_le (cfg : HookConfig) (evs : List SpontEvent) :
    ∀ s : HookState, s.reconnectAttempts ≤ cfg.maxReconnectAttempts →
      (runSpont cfg evs s).reconnectAttempts ≤ cfg.maxReconnectAttempts := by
  induction evs with
  | nil => intro s h; exact h
  | cons e es ih => intro s h; exact ih _ (spontStep_attempts_le cfg e s h)

theorem onopen_attempts (s : HookState) (h : s.mounted = true) :
    (onopen s).reconnectAttempts = 0 := by
  simp [onopen, h]

end Hook

/-! ### Claims about the connection manager -/

/-- Claim C5 is false as stated: `disconnect()` calls `clearTimeout` only
on the timeout id currently stored in `reconnectTimeoutRef`, and `onclose`
overwrites that ref without cancelling. In the trace connect, close
(schedules timeout 0), manual connect, close (schedules timeout 1,
orphaning the still-live timeout 0), disconnect (clears only timeout 1),
the orphaned timeout 0 is still live and, since `mountedRef` stays true,
its expiry reaches the `connect()` call: a scheduled reconnect fires after
`disconnect()` even though a retry timer was pending at the time of the
call. -/
theorem claim_C5_counterexample :
    Hook.anyReconnectFires ⟨3000, 5⟩ [Hook.SpontEvent.timerTick 0]
      (Hook.disconnect ⟨3000, 5⟩
        (Hook.onclose ⟨3000, 5⟩
          (Hook.connect
            (Hook.onclose ⟨3000, 5⟩
              (Hook.connect ⟨none, 0, none, [], 0, true, false, false⟩))))) = true := by
  decide

/-- Claim C5 (amended): `disconnect()` cancels the retry timeout stored in
`reconnectTimeoutRef` and pins the attempt counter to the maximum, so the
close handler triggered by closing the socket schedules nothing; provided
every retry timeout still live at the time of the call is the one stored
in the ref (no timeout was orphaned by an intervening manual reconnect),
no scheduled reconnect ever fires afterwards. An orphaned earlier timeout,
however, survives `disconnect()` and its expiry still calls `connect()`. -/
theorem claim_C5_amended (cfg : Hook.HookConfig) (s : Hook.HookState)
    (evs : List Hook.SpontEvent)
    (horph : ∀ t ∈ s.liveTimers, s.reconnectTimeout = some t)
    (hnd : s.liveTimers.Nodup) :
    (Hook.disconnect cfg s).liveTimers = [] ∧
    (Hook.disconnect cfg s).reconnectAttempts = cfg.maxReconnectAttempts ∧
    Hook.anyReconnectFires cfg evs (Hook.disconnect cfg s) = false := by
  have hnil := Hook.disconnect_liveTimers_nil cfg s horph hnd
  have hmax := Hook.disconnect_attempts cfg s
  exact ⟨hnil, hmax, Hook.anyReconnectFires_noTimers cfg evs _ hnil hmax⟩

/-- Witness for the amended claim C5: one live retry timeout, stored in
the ref, at the time of the `disconnect()` call; afterwards neither its
expiry nor a socket-close event fires a reconnect. -/
theorem claim_C5_witness :
    ((∀ t ∈ (⟨none, 2, some 3, [3], 4, true, false, false⟩ :
          Hook.HookState).liveTimers,
        (⟨none, 2, some 3, [3], 4, true, false, false⟩ :
          Hook.HookState).reconnectTimeout = some t) ∧
      (⟨none, 2, some 3, [3], 4, true, false, false⟩ :
          Hook.HookState).liveTimers.Nodup) ∧
    ((Hook.disconnect ⟨3000, 5⟩
          ⟨none, 2, some 3, [3], 4, true, false, false⟩).liveTimers = [] ∧
      (Hook.disconnect ⟨3000, 5⟩
          ⟨none, 2, some 3, [3], 4, true, false, false⟩).reconnectAttempts =
        (⟨3000, 5⟩ : Hook.HookConfig).maxReconnectAttempts ∧
      Hook.anyReconnectFires ⟨3000, 5⟩ [Hook.SpontEvent.timerTick 3, .socketClose]
        (Hook.disconnect ⟨3000, 5⟩
          ⟨none, 2, some 3, [3], 4, true, false, false⟩) = false) :=
  ⟨⟨by decide, by decide⟩,
    claim_C5_amended ⟨3000, 5⟩ ⟨none, 2, some 3, [3], 4, true, false, false⟩
      [Hook.SpontEvent.timerTick 3, .socketClose] (by decide) (by decide)⟩

/-- Claim C6: while disconnected and retrying (socket-close events and
timer expirations, no successful connect), the attempt counter increases
by exactly one per scheduled retry, never exceeds the maximum, and hence at
most `maxReconnectAttempts - current` further retries are scheduled; a
successful connect (`onopen` while mounted) resets the counter to 0. -/
theorem claim_C6 (cfg : Hook.HookConfig) (s : Hook.HookState)
    (evs : List Hook.SpontEvent)
    (h : s.reconnectAttempts ≤ cfg.maxReconnectAttempts) (hm : s.mounted = true) :
    (Hook.runSpont cfg evs s).reconnectAttempts =
      s.reconnectAttempts + Hook.scheduledCount cfg evs s ∧
    (Hook.runSpont cfg evs s).reconnectAttempts ≤ cfg.maxReconnectAttempts ∧
    Hook.scheduledCount cfg evs s ≤ cfg.maxReconnectAttempts - s.reconnectAttempts ∧
    (Hook.onopen s).reconnectAttempts = 0 := by
  have ha := Hook.runSpont_attempts cfg evs s
  have hle := Hook.runSpont_attempts_le cfg evs s h
  refine ⟨ha, hle, ?_, Hook.onopen_attempts s hm⟩
  omega

/-- Witness for claim C6 at a concrete run: fresh state, interval 3000,
maximum 5, and the event sequence close, expiry of the scheduled timeout,
close. -/
theorem claim_C6_witness :
    ((⟨none, 0, none, [], 0, true, false, false⟩ : Hook.HookState).reconnectAttempts ≤
        (⟨3000, 5⟩ : Hook.HookConfig).maxReconnectAttempts ∧
      (⟨none, 0, none, [], 0, true, false, false⟩ : Hook.HookState).mounted = true) ∧
    ((Hook.runSpont ⟨3000, 5⟩ [.socketClose, .timerTick 0, .socketClose]
          ⟨none, 0, none, [], 0, true, false, false⟩).reconnectAttempts =
        (⟨none, 0, none, [], 0, true, false, false⟩ : Hook.HookState).reconnectAttempts +
          Hook.scheduledCount ⟨3000, 5⟩ [.socketClose, .timerTick 0, .socketClose]
            ⟨none, 0, none, [], 0, true, false, false⟩ ∧
      (Hook.runSpont ⟨3000, 5⟩ [.socketClose, .timerTick 0, .socketClose]
          ⟨none, 0, none, [], 0, true, false, false⟩).reconnectAttempts ≤
        (⟨3000, 5⟩ : Hook.HookConfig).maxReconnectAttempts ∧
      Hook.scheduledCount ⟨3000, 5⟩ [.socketClose, .timerTick 0, .socketClose]
          ⟨none, 0, none, [], 0, true, false, false⟩ ≤
        (⟨3000, 5⟩ : Hook.HookConfig).maxReconnectAttempts -
          (⟨none, 0, none, [], 0, true, false, false⟩ : Hook.HookState).reconnectAttempts ∧
      (Hook.onopen ⟨none, 0, none, [], 0, true, false, false⟩).reconnectAttempts = 0) :=
  ⟨⟨by decide, rfl⟩,
    claim_C6 ⟨3000, 5⟩ ⟨none, 0, none, [], 0, true, false, false⟩
      [.socketClose, .timerTick 0, .socketClose] (by decide) rfl⟩

/-- Claim C7: `connect()` is idempotent while the manager is `connecting`
or `connected` — any number of repeated calls in those states leaves the
state unchanged, so at most one underlying socket attempt is outstanding. -/
theorem claim_C7 (s : Hook.HookState) (n : Nat)
    (h : s.ws = some .connecting ∨ s.ws = some .opened) :
    Hook.connect^[n] s = s :=
  Function.iterate_fixed (Hook.connect_noop s h) n

/-- Witness for claim C7: three repeated `connect()` calls on a connected
state are a no-op. -/
theorem claim_C7_witness :
    ((⟨some .opened, 0, none, [], 0, true, true, false⟩ :
        Hook.HookState).ws = some .connecting ∨
      (⟨some .opened, 0, none, [], 0, true, true, false⟩ :
        Hook.HookState).ws = some .opened) ∧
    Hook.connect^[3]
        (⟨some .opened, 0, none, [], 0, true, true, false⟩ : Hook.HookState) =
      ⟨some .opened, 0, none, [], 0, true, true, false⟩ :=
  ⟨Or.inr rfl,
    claim_C7 ⟨some .opened, 0, none, [], 0, true, true, false⟩ 3 (Or.inr rfl)⟩

/-! ### Lemmas about the chat message reducer -/

namespace ChatUI

theorem handle_stream_none (now : Nat) (c : String) (s : ChatState)
    (h : s.currentAssistantId = none) :
    handleWebSocketMessage now ⟨"stream", c⟩ s =
      { s with thinkingText := none,
               currentAssistantId := some ("assistant-" ++ toString now),
               messages := s.messages ++
                 [⟨"assistant-" ++ toString now, "assistant", c, now, some true, some c⟩] } := by
  simp only [handleWebSocketMessage, h]

theorem handle_stream_some (now : Nat) (c : String) (s : ChatState) (aid : String)
    (h : s.currentAssistantId = some aid) :
    handleWebSocketMessage now ⟨"stream", c⟩ s =
      { s with thinkingText := none,
               messages := s.messages.map (fun msg =>
                 if msg.id = aid then
                   { msg with displayContent := some (msg.displayContent.getD "" ++ c),
                              content := msg.content ++ c }
                 else msg) } := by
  simp only [handleWebSocketMessage, h]

theorem handle_done_some (now : Nat) (c : String) (s : ChatState) (aid : String)
    (h : s.currentAssistantId = some aid) :
    handleWebSocketMessage now ⟨"done", c⟩ s =
      { s with
          messages := s.messages.map (fun msg =>
            if msg.id = aid then { msg with isStreaming := some false } else msg),
          currentAssistantId := none, thinkingText := none, isWaiting := false } := by
  simp only [handleWebSocketMessage, h]

theorem handle_unknown (t c : String) (now : Nat) (s : ChatState)
    (ht : t ∉ (["connected", "thinking", "thinking_done", "stream", "done",
      "error"] : List String)) :
    handleWebSocketMessage now ⟨t, c⟩ s = s := by
  simp only [List.mem_cons, List.mem_singleton, not_or] at ht
  obtain ⟨h1, h2, h3, h4, h5, h6, _⟩ := ht
  rw [handleWebSocketMessage.eq_def]
  split <;> simp_all

end ChatUI

/-! ### Claims about the client chat state -/

/-- Claim C2 is false as stated: the client appends each `stream` fragment
verbatim with no separator and ignores the `done` payload, so the inbound
sequence `stream "Hello"`, `stream "world"`, `done "Hello world"` leaves an
assistant message whose content is "Helloworld", and no message in the
list has content "Hello world". -/
theorem claim_C2_counterexample :
    (ChatUI.runMessages
        [(1, ⟨"stream", "Hello"⟩), (2, ⟨"stream", "world"⟩), (3, ⟨"done", "Hello world"⟩)]
        ⟨[], false, none, none⟩).messages.getLast? =
      some ⟨"assistant-1", "assistant", "Helloworld", 1, some false, some "Helloworld"⟩ ∧
    ∀ m ∈ (ChatUI.runMessages
        [(1, ⟨"stream", "Hello"⟩), (2, ⟨"stream", "world"⟩), (3, ⟨"done", "Hello world"⟩)]
        ⟨[], false, none, none⟩).messages, m.content ≠ "Hello world" := by
  decide

/-- Claim C2 (amended): for the inbound sequence `stream f1`, `stream f2`,
`done d` starting with no assistant message in progress, the resulting
assistant message ends with content equal to the concatenation `f1 ++ f2`
of the fragments (the `done` payload is ignored) and `isStreaming = false`,
and the waiting flag is cleared. -/
theorem claim_C2_amended (s : ChatUI.ChatState) (f1 f2 d : String) (n1 n2 n3 : Nat)
    (h : s.currentAssistantId = none) :
    (ChatUI.runMessages [(n1, ⟨"stream", f1⟩), (n2, ⟨"stream", f2⟩), (n3, ⟨"done", d⟩)]
        s).messages.getLast? =
      some ⟨"assistant-" ++ toString n1, "assistant", f1 ++ f2, n1, some false,
        some (f1 ++ f2)⟩ ∧
    (ChatUI.runMessages [(n1, ⟨"stream", f1⟩), (n2, ⟨"stream", f2⟩), (n3, ⟨"done", d⟩)]
        s).isWaiting = false := by
  simp only [ChatUI.runMessages]
  rw [ChatUI.handle_stream_none _ _ _ h]
  rw [ChatUI.handle_stream_some _ _ _ _ rfl]
  rw [ChatUI.handle_done_some _ _ _ _ rfl]
  constructor
  · simp [List.map_append, List.getLast?_concat]
  · rfl

/-- Witness for the amended claim C2 at the concrete scenario of the spec. -/
theorem claim_C2_witness :
    (⟨[], false, none, none⟩ : ChatUI.ChatState).currentAssistantId = none ∧
    ((ChatUI.runMessages
        [(1, ⟨"stream", "Hello"⟩), (2, ⟨"stream", "world"⟩), (3, ⟨"done", "Hello world"⟩)]
        ⟨[], false, none, none⟩).messages.getLast? =
      some ⟨"assistant-" ++ toString 1, "assistant", "Hello" ++ "world", 1, some false,
        some ("Hello" ++ "world")⟩ ∧
    (ChatUI.runMessages
        [(1, ⟨"stream", "Hello"⟩), (2, ⟨"stream", "world"⟩), (3, ⟨"done", "Hello world"⟩)]
        ⟨[], false, none, none⟩).isWaiting = false) :=
  ⟨rfl, claim_C2_amended ⟨[], false, none, none⟩ "Hello" "world" "Hello world" 1 2 3 rfl⟩

/-- Claim C9 is false as stated: a decoded frame with an unknown `type`
is not dropped by the client receiver — `JSON.parse` succeeding is the only
check, so the frame is passed to the registered message handler. -/
theorem claim_C9_counterexample :
    Hook.onmessage (.decoded "bogus" "x") = some ("bogus", "x") ∧
    Hook.onmessage (.decoded "bogus" "x") ≠ none := by
  exact ⟨rfl, by decide⟩

/-- Claim C9 (amended): frames with invalid encoding are dropped by the
client receiver without invoking the registered handler; decoded frames
with an unknown `type` are passed to the handler, which matches no case
and leaves the chat state (message list included) unchanged; the server
performs no chat processing for either — it ignores decoded non-`chat`
types and answers an undecodable frame with a single `error` frame.
Neither receiver terminates the connection. -/
theorem claim_C9_amended (t c : String) (n : Nat) (s : ChatUI.ChatState)
    (useAI modelSet : Bool) (outcome : Server.UpstreamOutcome)
    (ht : t ∉ (["connected", "thinking", "thinking_done", "stream", "done",
      "error"] : List String))
    (hchat : t ≠ "chat") :
    Hook.onmessage .undecodable = none ∧
    Hook.onmessage (.decoded t c) = some (t, c) ∧
    ChatUI.handleWebSocketMessage n ⟨t, c⟩ s = s ∧
    Server.serverOnMessage useAI modelSet outcome (.decoded t c) = [] ∧
    Server.serverOnMessage useAI modelSet outcome .undecodable =
      [⟨"error", some "Failed to process message"⟩] := by
  refine ⟨rfl, rfl, ChatUI.handle_unknown t c n s ht, ?_, rfl⟩
  simp only [Server.serverOnMessage]
  rw [if_neg hchat]

/-- Witness for the amended claim C9 at the concrete unknown type "bogus". -/
theorem claim_C9_witness :
    (("bogus" : String) ∉ (["connected", "thinking", "thinking_done", "stream", "done",
        "error"] : List String) ∧ ("bogus" : String) ≠ "chat") ∧
    (Hook.onmessage .undecodable = none ∧
     Hook.onmessage (.decoded "bogus" "x") = some ("bogus", "x") ∧
     ChatUI.handleWebSocketMessage 0 ⟨"bogus", "x"⟩ ⟨[], false, none, none⟩ =
       ⟨[], false, none, none⟩ ∧
     Server.serverOnMessage false false (.ok []) (.decoded "bogus" "x") = [] ∧
     Server.serverOnMessage false false (.ok []) .undecodable =
       [⟨"error", some "Failed to process message"⟩]) :=
  ⟨⟨by decide, by decide⟩,
    claim_C9_amended "bogus" "x" 0 ⟨[], false, none, none⟩ false false (.ok [])
      (by decide) (by decide)⟩

/-- Claim C10: a `done` event arriving while no assistant message is in
progress leaves the message list unchanged — no empty assistant message is
created — and only clears the thinking indicator and the waiting flag. -/
theorem claim_C10 (now : Nat) (c : String) (s : ChatUI.ChatState)
    (h : s.currentAssistantId = none) :
    ChatUI.handleWebSocketMessage now ⟨"done", c⟩ s =
      { s with thinkingText := none, isWaiting := false } := by
  simp only [ChatUI.handleWebSocketMessage, h]

/-- Witness for claim C10: a `done` with no turn in progress only clears
the indicator and the waiting flag. -/
theorem claim_C10_witness :
    (⟨[], true, some "Analyzing your question...", none⟩ :
        ChatUI.ChatState).currentAssistantId = none ∧
    ChatUI.handleWebSocketMessage 7 ⟨"done", ""⟩
        ⟨[], true, some "Analyzing your question...", none⟩ =
      ⟨[], false, none, none⟩ :=
  ⟨rfl, claim_C10 7 "" ⟨[], true, some "Analyzing your question...", none⟩ rfl⟩

end FileView
